import Mathlib

/-!
Verification development for the Python-PiShock repository.

Shallow embedding of the code in `src/pishock/zap/httpapi.py`,
`src/pishock/zap/serialapi.py`, `src/pishock/zap/cli/cli_random.py` and
`src/pishock/zap/cli/cli_utils.py`.

Modelling conventions:
- Python numbers (int or float) are modelled by `PyNum`: an exact rational
  value (`PyRat`, a numerator over a positive denominator, compared by
  cross-multiplication) together with a flag telling whether the Python
  value is a `float`. `float.is_integer()` becomes "the denominator divides
  the numerator"; Python's `int(x)` (truncation towards zero) becomes
  `PyRat.trunc`, defined by `Int.tdiv` which also truncates towards zero.
- Fallible Python code (raising exceptions) is modelled with `Except`.
- An operation that would perform I/O returns the request/command object it
  would send inside `Except.ok`; a validation error produces `Except.error`
  before any such object exists, so "no I/O happened" is "the result is not
  `Except.ok`".
- `random.randint(a, b)` and `random.choice` are modelled by `randint` /
  `pyChoice` over an explicit stream of raw draws, which keeps the bounds
  behaviour (a uniform draw lies in the closed interval) while making the
  control flow deterministic in the supplied stream.
-/

deriving instance DecidableEq for Except

namespace PiShock

/-! ### Python numeric values -/

/-- Exact value of a Python number: a numerator over a positive denominator.
Comparisons by cross-multiplication keep everything kernel-computable. -/
structure PyRat where
  nm : ℤ
  dn : ℤ
  pos : 0 < dn

/-- Order `x <= y` on exact rationals. -/
def PyRat.le (x y : PyRat) : Prop := x.nm * y.dn ≤ y.nm * x.dn

/-- Order `x < y` on exact rationals. -/
def PyRat.lt (x y : PyRat) : Prop := x.nm * y.dn < y.nm * x.dn

instance (x y : PyRat) : Decidable (PyRat.le x y) := Int.decLe _ _

instance (x y : PyRat) : Decidable (PyRat.lt x y) := Int.decLt _ _

/-- Python `float.is_integer()`: the value is a whole number. -/
def PyRat.isIntVal (x : PyRat) : Prop := x.nm % x.dn = 0

instance (x : PyRat) : Decidable (PyRat.isIntVal x) := Int.decEq _ _

/-- Python `int(x)`: truncation towards zero (`Int.tdiv` is T-division). -/
def PyRat.trunc (x : PyRat) : ℤ := Int.tdiv x.nm x.dn

/-- Multiplication of an exact rational by a natural constant. -/
def PyRat.mulNat (x : PyRat) (k : ℕ) : PyRat := ⟨x.nm * k, x.dn, x.pos⟩

/-- The exact rational of an integer. -/
def pyRatInt (n : ℤ) : PyRat := ⟨n, 1, by decide⟩

/-- A Python number: an exact rational value plus whether the Python object
is a `float` (as opposed to an `int`). In a `PyNum` coming from a Python
`int`, the value is whole. -/
structure PyNum where
  isFloat : Bool
  val : PyRat

/-! ### HTTP API (httpapi.py) -/

/-- The `Operation` enum of httpapi.py. -/
inductive Operation where
  | shock
  | vibrate
  | beep
deriving DecidableEq, Repr

/-- The numeric `value` of each `Operation` enum member. -/
def Operation.value : Operation → ℕ
  | Operation.shock => 0
  | Operation.vibrate => 1
  | Operation.beep => 2

/-- The `APIError` subclasses of httpapi.py that can come out of response
classification, including `HTTPError` (invalid HTTP status, carrying status
code and body) and `UnknownError` (unknown 200-status body). -/
inductive ApiError where
  | notAuthorized
  | shareCodeNotFound
  | shareCodeAlreadyUsed
  | shockerPaused
  | deviceNotConnected
  | deviceInUse
  | shockNotAllowed
  | vibrateNotAllowed
  | beepNotAllowed
  | httpError (status : ℕ) (body : String)
  | unknownError (body : String)
deriving DecidableEq, Repr

/-- The `HTTPShocker._ERROR_MESSAGES` dict: each known failure body literal
paired with the typed error raised for it, in source order. -/
def errorMessages : List (String × ApiError) := [
  ("Not Authorized.", ApiError.notAuthorized),
  ("This code doesn\x27t exist.", ApiError.shareCodeNotFound),
  ("This share code has already been used by somebody else.",
    ApiError.shareCodeAlreadyUsed),
  ("Shocker is Paused or does not exist. Unpause to send command.",
    ApiError.shockerPaused),
  ("Device currently not connected.", ApiError.deviceNotConnected),
  ("Device in Use.", ApiError.deviceInUse),
  ("Shock not allowed.", ApiError.shockNotAllowed),
  ("Vibrate not allowed.", ApiError.vibrateNotAllowed),
  ("Beep not allowed.", ApiError.beepNotAllowed)]

/-- The `HTTPShocker._SUCCESS_MESSAGES` list. -/
def successMessages : List String := ["Operation Succeeded.", "Operation Attempted."]

/-- Model of `requests.Response.raise_for_status`, as invoked by
`PiShockAPI.request`: it raises `HTTPError` exactly for client-error (4xx)
and server-error (5xx) status codes. -/
def raiseForStatus (status : ℕ) (body : String) : Except ApiError Unit :=
  if 400 ≤ status ∧ status < 600 then Except.error (ApiError.httpError status body)
  else Except.ok ()

/-- The body classification at the end of `HTTPShocker._call`: a body equal to
a known failure literal raises the corresponding typed error; otherwise a body
that is not a success literal raises `UnknownError` with the raw body. -/
def classifyOperateBody (body : String) : Except ApiError Unit :=
  match errorMessages.lookup body with
  | some e => Except.error e
  | none =>
    if body ∈ successMessages then Except.ok ()
    else Except.error (ApiError.unknownError body)

/-- Full response handling of an `apioperate` call in `HTTPShocker._call`:
`PiShockAPI.request` (via `raise_for_status`) first, then body
classification. -/
def operateResponse (status : ℕ) (body : String) : Except ApiError Unit :=
  match raiseForStatus status body with
  | Except.error e => Except.error e
  | Except.ok _ => classifyOperateBody body

/-- Model of `PiShockAPI.translate_http_errors`: an `HTTPError` with status
404 becomes `ShareCodeNotFoundError`, status 403 becomes
`NotAuthorizedError`, any other `HTTPError` is re-raised unchanged. -/
def translateHttpErrors {α : Type} : Except ApiError α → Except ApiError α
  | Except.error (ApiError.httpError status body) =>
    if status = 404 then Except.error ApiError.shareCodeNotFound
    else if status = 403 then Except.error ApiError.notAuthorized
    else Except.error (ApiError.httpError status body)
  | r => r

/-- Status handling of an info lookup (`HTTPShocker.info` /
`PiShockAPI.get_shockers`): the request wrapped in
`translate_http_errors`. -/
def infoResponseStatus (status : ℕ) (body : String) : Except ApiError Unit :=
  translateHttpErrors (raiseForStatus status body)

/-- Model of `HTTPShocker._parse_duration`. A strictly fractional float must
lie in the window `0.1 <= duration < 1.6` and is reinterpreted as
milliseconds; any other duration (int, or integer-valued float) must satisfy
`0 <= duration <= 15`. -/
def parseDuration (d : PyNum) : Except String ℤ :=
  if d.isFloat = true ∧ ¬ d.val.isIntVal then
    if PyRat.le ⟨1, 10, by decide⟩ d.val ∧ PyRat.lt d.val ⟨16, 10, by decide⟩ then
      Except.ok (d.val.mulNat 1000).trunc
    else Except.error "float duration needs to be between 0.1 and 1.5"
  else
    if PyRat.le (pyRatInt 0) d.val ∧ PyRat.le d.val (pyRatInt 15) then
      Except.ok d.val.trunc
    else Except.error "duration needs to be between 0 and 15"

/-- Check from `HTTPShocker._call` and `SerialAPI.operate`: an intensity is
invalid when it is given and not within `0..100`. -/
def intensityInvalid : Option ℤ → Bool
  | none => false
  | some i => decide (¬(0 ≤ i ∧ i ≤ 100))

/-- The request an `apioperate` call would POST (the `params` dict built in
`HTTPShocker._call`, minus the credentials added by `PiShockAPI.request`). -/
structure HttpRequest where
  endpoint : String
  name : String
  code : String
  duration : ℤ
  op : ℕ
  intensity : Option ℤ
deriving DecidableEq, Repr

/-- Model of `HTTPShocker._call` up to the point where the HTTP request is
issued: intensity validation, then duration parsing, then the request that
would be sent. An `Except.error` means a `ValueError` was raised before any
HTTP request was made. -/
def httpCall (logName sharecode : String) (op : Operation) (duration : PyNum)
    (intensity : Option ℤ) : Except String HttpRequest :=
  if intensityInvalid intensity then
    Except.error "intensity needs to be between 0 and 100"
  else
    match parseDuration duration with
    | Except.error e => Except.error e
    | Except.ok dur =>
      Except.ok ⟨"apioperate", logName, sharecode, dur, op.value, intensity⟩

/-- Method `HTTPShocker.shock`. -/
def httpShock (logName sharecode : String) (duration : PyNum) (intensity : ℤ) :
    Except String HttpRequest :=
  httpCall logName sharecode Operation.shock duration (some intensity)

/-- Method `HTTPShocker.vibrate`. -/
def httpVibrate (logName sharecode : String) (duration : PyNum) (intensity : ℤ) :
    Except String HttpRequest :=
  httpCall logName sharecode Operation.vibrate duration (some intensity)

/-- Method `HTTPShocker.beep` (no intensity). -/
def httpBeep (logName sharecode : String) (duration : PyNum) :
    Except String HttpRequest :=
  httpCall logName sharecode Operation.beep duration none

/-- Booleanized success of an `Except` result. -/
def exOk {ε α : Type} : Except ε α → Bool
  | Except.ok _ => true
  | Except.error _ => false

/-! ### Serial API (serialapi.py) -/

/-- The `SerialOperation` enum. -/
inductive SerialOperation where
  | shock
  | vibrate
  | beep
  | opEnd
deriving DecidableEq, Repr

/-- String `value` of each `SerialOperation` member. -/
def SerialOperation.value : SerialOperation → String
  | SerialOperation.shock => "shock"
  | SerialOperation.vibrate => "vibrate"
  | SerialOperation.beep => "beep"
  | SerialOperation.opEnd => "end"

/-- Payload of the `value` key of a serial command (only the operate payload
is needed by the claims). -/
inductive CmdValue where
  | operateValue (id : ℤ) (op : String) (durationMs : ℤ) (intensity : Option ℤ)
deriving DecidableEq, Repr

/-- A serial command as framed by `SerialAPI._build_cmd`: the `cmd` name and
the optional `value` payload (the key is omitted when the payload is
empty/falsy, modelled by `none`). -/
structure SerialCmd where
  cmd : String
  value : Option CmdValue
deriving DecidableEq, Repr

/-- Function `SerialAPI._build_cmd`, at the structured level (JSON
serialization itself is out of scope). -/
def build_cmd (cmd : String) (value : Option CmdValue) : SerialCmd := ⟨cmd, value⟩

/-- Model of `SerialAPI.operate`: intensity validation, then the duration in
milliseconds must satisfy `0 <= int(duration * 1000) < 2**32`; on success the
operate command that `_send_cmd` would write to the port. An `Except.error`
means a `ValueError` was raised before any bytes were written. -/
def serialOperate (shockerId : ℤ) (op : SerialOperation) (duration : PyNum)
    (intensity : Option ℤ) : Except String SerialCmd :=
  if intensityInvalid intensity then
    Except.error "intensity needs to be between 0 and 100"
  else
    let durationMs := (duration.val.mulNat 1000).trunc
    if ¬(0 ≤ durationMs ∧ durationMs < 2^32) then
      Except.error "duration needs to be between 0 and 2**32 / 1000"
    else
      Except.ok (build_cmd "operate"
        (some (CmdValue.operateValue shockerId op.value durationMs intensity)))

/-- The sentinel `SerialAPI.INFO_PREFIX`, as a character list. -/
def INFO_TAG : List Char := "TERMINALINFO: ".data

/-- Function `SerialAPI.decode_info`: strip the sentinel from the line,
leaving the JSON payload text (JSON parsing itself is out of scope; the
payload is kept as raw text). -/
def decode_info (line : List Char) : List Char := line.drop INFO_TAG.length

/-- Result of one `SerialAPI.wait_info` run, simulated for a finite number of
loop iterations (`running` means the simulation budget ran out while the
loop was still going). -/
inductive WaitResult where
  | found (payload : List Char) (linesConsumed : ℕ)
  | timedOut (linesConsumed : ℕ)
  | running
deriving DecidableEq, Repr

/-- The loop condition of `SerialAPI.wait_info`:
`timeout is None or count < timeout`. -/
def stillWaiting (timeout : Option ℕ) (count : ℕ) : Bool :=
  match timeout with
  | none => true
  | some n => decide (count < n)

/-- The `while` loop of `SerialAPI.wait_info`. `lines j` is the j-th line
`self.dev.readline()` returns; `count` doubles as the index of the next line
to read, exactly as in the source where `count` increments once per line
read. `gas` bounds how many iterations are simulated. -/
def waitInfoAux (lines : ℕ → List Char) (timeout : Option ℕ) :
    ℕ → ℕ → WaitResult
  | 0, _ => WaitResult.running
  | gas + 1, count =>
    if stillWaiting timeout count then
      if INFO_TAG.isPrefixOf (lines count) then
        WaitResult.found (decode_info (lines count)) (count + 1)
      else waitInfoAux lines timeout gas (count + 1)
    else WaitResult.timedOut count

/-- Method `SerialAPI.wait_info`, starting with `count = 0`. -/
def wait_info (lines : ℕ → List Char) (timeout : Option ℕ) (gas : ℕ) :
    WaitResult :=
  waitInfoAux lines timeout gas 0

/-! ### Serial port autodetection (serialapi.py) -/

/-- The relevant fields of `serial.tools.list_ports_common.ListPortInfo`:
`vid` and `pid` are `None` for non-USB ports. -/
structure ListPortInfo where
  device : String
  vid : Option ℤ
  pid : Option ℤ
deriving DecidableEq, Repr

/-- The `USB_IDS` allowlist: (vendor id, product id) of the CH340 (PiShock
Next) and CH9102 (PiShock Lite) USB serial chips. -/
def USB_IDS : List (ℤ × ℤ) := [(0x1A86, 0x7523), (0x1A86, 0x55D4)]

/-- Function `is_maybe_pishock`: `(info.vid, info.pid) in USB_IDS`. -/
def is_maybe_pishock (info : ListPortInfo) : Bool :=
  decide ((info.vid, info.pid) ∈ USB_IDS.map (fun p => (some p.1, some p.2)))

/-- The `SerialAutodetectError` raised by `_autodetect_port`, carrying the
candidate device names when there are several. -/
inductive SerialAutodetectError where
  | noneFound
  | multipleFound (candidates : List String)
deriving DecidableEq, Repr

/-- Function `_autodetect_port`: filter the enumerated ports through
`is_maybe_pishock`; exactly one candidate is returned, zero or several raise
`SerialAutodetectError`. -/
def autodetect_port (ports : List ListPortInfo) :
    Except SerialAutodetectError String :=
  match (ports.filter (fun i => is_maybe_pishock i)).map ListPortInfo.device with
  | [] => Except.error SerialAutodetectError.noneFound
  | [c] => Except.ok c
  | cs => Except.error (SerialAutodetectError.multipleFound cs)

/-- Constructor `SerialAPI.__init__` up to opening the port: with an explicit
port it is used as-is, otherwise autodetection runs. `Except.ok p` means
`serial.Serial(p, 115200, timeout=1)` is opened on `p`; `Except.error` means
the constructor raised and no port was opened. -/
def serialAPIInit (port : Option String) (ports : List ListPortInfo) :
    Except SerialAutodetectError String :=
  match port with
  | some p => Except.ok p
  | none => autodetect_port ports

/-! ### SerialShocker construction (serialapi.py) -/

/-- One entry of the `shockers` list of the device info dict. -/
structure DeviceShockerEntry where
  id : ℤ
  paused : Bool
deriving DecidableEq, Repr

/-- The decoded device info dict (the fields `SerialShocker.info` uses). -/
structure DeviceInfo where
  clientId : ℤ
  shockers : List DeviceShockerEntry
deriving DecidableEq, Repr

/-- The `BasicShockerInfo` record of core.py. -/
structure BasicShockerInfo where
  name : String
  client_id : ℤ
  shocker_id : ℤ
  is_paused : Bool
deriving DecidableEq, Repr

/-- The `ShockerNotFoundError` raised by `SerialShocker.info`. -/
inductive ShockerNotFoundError where
  | notFound (id : ℤ)
deriving DecidableEq, Repr

/-- Lookup in the dict `{s["id"]: s for s in data["shockers"]}` built by
`SerialShocker.info`: for duplicate ids the later entry wins, as in a Python
dict comprehension. -/
def shockersDictLookup : List DeviceShockerEntry → ℤ → Option DeviceShockerEntry
  | [], _ => none
  | s :: rest, i =>
    match shockersDictLookup rest i with
    | some t => some t
    | none => if s.id = i then some s else none

/-- Method `SerialShocker.info`, given the decoded device info: an absent
shocker id raises `ShockerNotFoundError`, a present one yields the
`BasicShockerInfo`. -/
def serialShockerInfo (data : DeviceInfo) (shockerId : ℤ) (name : String) :
    Except ShockerNotFoundError BasicShockerInfo :=
  match shockersDictLookup data.shockers shockerId with
  | none => Except.error (ShockerNotFoundError.notFound shockerId)
  | some s => Except.ok ⟨name, data.clientId, shockerId, s.paused⟩

/-- The serial commands sent while `SerialShocker.__init__` runs: its
`self.info()` call performs `SerialAPI.info`, which sends exactly one `info`
command and then only reads lines. -/
def serialShockerInitCmds : List SerialCmd := [build_cmd "info" none]

/-- Constructor `SerialShocker.__init__`: stores the id and calls `info()` so
that an unknown shocker id fails construction. The result is paired with the
commands sent to the device during construction. -/
def serialShockerInit (data : DeviceInfo) (shockerId : ℤ) (name : String) :
    Except ShockerNotFoundError BasicShockerInfo × List SerialCmd :=
  (serialShockerInfo data shockerId name, serialShockerInitCmds)

/-! ### Range (cli_utils.py) -/

/-- The `Range` dataclass of cli_utils.py. A constructed value always
satisfies `a <= b`, because `__post_init__` raises otherwise; the invariant
is carried as a proof field. -/
structure Range where
  a : ℤ
  b : ℤ
  inv : a ≤ b

/-- Construction `Range(a, b)` including the `__post_init__` check: `b < a`
raises `ValueError("Min must be less than max.")`. -/
def Range.make (a b : ℤ) : Except String Range :=
  if h : b < a then Except.error "Min must be less than max."
  else Except.ok ⟨a, b, not_lt.mp h⟩

/-- Python `random.randint(a, b)` for `a <= b`, driven by one raw draw `s`:
the result is `a + s % (b - a + 1)`, which ranges exactly over `a..b`. -/
def randint (a b : ℤ) (s : ℕ) : ℤ := a + (s : ℤ) % (b - a + 1)

/-- Method `Range.pick`: `random.randint(self.a, self.b)`. -/
def Range.pick (r : Range) (s : ℕ) : ℤ := randint r.a r.b s

/-- Python `random.choice(xs)`, driven by one raw draw: an element of `xs`,
or `none` (an `IndexError`) when `xs` is empty. -/
def pyChoice {α : Type} (xs : List α) (s : ℕ) : Option α :=
  xs.get? (s % xs.length)

/-! ### Random automation engine (cli_random.py) -/

/-- The `SpamSettings` dataclass. -/
structure SpamSettings where
  possibility : ℤ
  operations : Range
  pause : Range
  duration : Range
  intensity : Option Range

/-- The `RandomShocker` state relevant to a tick. Shockers are identified by
an integer id; `operations` is the enabled-operations list built by
`__init__`. -/
structure RandomShockerCfg where
  shockers : List ℤ
  duration : Range
  intensity : Range
  pause : Range
  spam_settings : SpamSettings
  vibrate_duration : Option Range
  vibrate_intensity : Option Range
  operations : List Operation

/-- The `operations` list `RandomShocker.__init__` builds from the `shock`
and `vibrate` flags. -/
def buildOperations (shock vibrate : Bool) : List Operation :=
  (if shock then [Operation.shock] else []) ++
  (if vibrate then [Operation.vibrate] else [])

/-- One operation performed by a tick, as observed at the shocker: the
target, the drawn duration and intensity, and whether the call raised one of
the caught errors (`APIError` / `ValueError`) and was reported instead of
propagating. -/
inductive Event where
  | shockCall (shocker : ℤ) (duration : ℤ) (intensity : ℤ) (failed : Bool)
  | vibrateCall (shocker : ℤ) (duration : ℤ) (intensity : ℤ) (failed : Bool)
deriving DecidableEq, Repr

/-- An error that escapes `RandomShocker._tick` and terminates the session:
the `assert` at the top of `_spam`, an `IndexError` from `random.choice` on
an empty list, or the `raise ValueError` arm of `_tick`. -/
inductive EngineError where
  | assertionFailed
  | indexError
  | invalidOperation
deriving DecidableEq, Repr

/-- The `for` loop of `RandomShocker._spam`. Each iteration draws a shocker
(`random.choice`), a spam duration, a spam intensity (falling back to the
main intensity range when no spam-specific one is set), calls
`shocker.shock` with caught errors reported via the `opFails` oracle, and
draws a spam pause. `σ` is the raw RNG draw stream, `i` the next draw index,
`ci` the index numbering shock/vibrate calls for `opFails`. -/
def spamIters (cfg : RandomShockerCfg) (opFails : ℕ → Bool) (σ : ℕ → ℕ) :
    ℕ → ℕ → ℕ → Except EngineError (List Event × ℕ × ℕ)
  | 0, i, ci => Except.ok ([], i, ci)
  | k + 1, i, ci =>
    match pyChoice cfg.shockers (σ i) with
    | none => Except.error EngineError.indexError
    | some sh =>
      let dur := cfg.spam_settings.duration.pick (σ (i + 1))
      let inten := (cfg.spam_settings.intensity.getD cfg.intensity).pick (σ (i + 2))
      let ev := Event.shockCall sh dur inten (opFails ci)
      let _pause := cfg.spam_settings.pause.pick (σ (i + 3))
      match spamIters cfg opFails σ k (i + 4) (ci + 1) with
      | Except.error e => Except.error e
      | Except.ok (evs, i5, ci5) => Except.ok (ev :: evs, i5, ci5)

/-- Method `RandomShocker._spam`: the `assert Operation.SHOCK in
self.operations`, then `operations.pick()` spam iterations. -/
def spam (cfg : RandomShockerCfg) (opFails : ℕ → Bool) (σ : ℕ → ℕ)
    (i ci : ℕ) : Except EngineError (List Event × ℕ × ℕ) :=
  if Operation.shock ∈ cfg.operations then
    spamIters cfg opFails σ (cfg.spam_settings.operations.pick (σ i)).toNat
      (i + 1) ci
  else Except.error EngineError.assertionFailed

/-- Method `RandomShocker._shock`: draw duration and intensity from the main
ranges and call `shocker.shock` inside `_handle_errors`, which catches
`APIError` / `ValueError` and reports them, so the action always completes. -/
def shockAction (cfg : RandomShockerCfg) (opFails : ℕ → Bool) (σ : ℕ → ℕ)
    (sh : ℤ) (i ci : ℕ) : List Event × ℕ × ℕ :=
  ([Event.shockCall sh (cfg.duration.pick (σ i)) (cfg.intensity.pick (σ (i + 1)))
      (opFails ci)], i + 2, ci + 1)

/-- Method `RandomShocker._vibrate`: like `_shock` but drawing from the
vibrate override ranges when set, falling back to the main ranges. -/
def vibrateAction (cfg : RandomShockerCfg) (opFails : ℕ → Bool) (σ : ℕ → ℕ)
    (sh : ℤ) (i ci : ℕ) : List Event × ℕ × ℕ :=
  ([Event.vibrateCall sh ((cfg.vibrate_duration.getD cfg.duration).pick (σ i))
      ((cfg.vibrate_intensity.getD cfg.intensity).pick (σ (i + 1)))
      (opFails ci)], i + 2, ci + 1)

/-- Method `RandomShocker._tick`: draw `random.randint(1, 100)`; at most
`spam_settings.possibility` enters the spam branch, otherwise a normal
action picks an operation and a shocker at random and runs it. An
`Except.error` is an exception escaping the tick (terminating `run`). -/
def tick (cfg : RandomShockerCfg) (opFails : ℕ → Bool) (σ : ℕ → ℕ)
    (i ci : ℕ) : Except EngineError (List Event × ℕ × ℕ) :=
  if randint 1 100 (σ i) ≤ cfg.spam_settings.possibility then
    spam cfg opFails σ (i + 1) ci
  else
    match pyChoice cfg.operations (σ (i + 1)) with
    | none => Except.error EngineError.indexError
    | some op =>
      match pyChoice cfg.shockers (σ (i + 2)) with
      | none => Except.error EngineError.indexError
      | some sh =>
        match op with
        | Operation.shock => Except.ok (shockAction cfg opFails σ sh (i + 3) ci)
        | Operation.vibrate => Except.ok (vibrateAction cfg opFails σ sh (i + 3) ci)
        | Operation.beep => Except.error EngineError.invalidOperation

/-- Erase the caught-and-reported flag of an event, leaving the action
shape. -/
def eraseOutcome : Event → Event
  | Event.shockCall sh d inten _ => Event.shockCall sh d inten false
  | Event.vibrateCall sh d inten _ => Event.vibrateCall sh d inten false

/-- Erase the caught-and-reported flags of a tick result. -/
def eraseResult : Except EngineError (List Event × ℕ × ℕ) →
    Except EngineError (List Event × ℕ × ℕ)
  | Except.error e => Except.error e
  | Except.ok (evs, i, ci) => Except.ok (evs.map eraseOutcome, i, ci)

/-- Property of every event issued by the spam loop: it is a shock call to a
shocker from the pool, with duration drawn from the spam duration range and
intensity drawn from the spam intensity range (falling back to the main
intensity range when none is set). -/
def spamEventOk (cfg : RandomShockerCfg) (e : Event) : Prop :=
  ∃ sh dur inten failed, e = Event.shockCall sh dur inten failed ∧
    sh ∈ cfg.shockers ∧
    cfg.spam_settings.duration.a ≤ dur ∧ dur ≤ cfg.spam_settings.duration.b ∧
    (cfg.spam_settings.intensity.getD cfg.intensity).a ≤ inten ∧
    inten ≤ (cfg.spam_settings.intensity.getD cfg.intensity).b

/-- Number of shocker operations a tick performed, or `none` if the tick
terminated with an escaping exception. -/
def tickEventCount : Except EngineError (List Event × ℕ × ℕ) → Option ℕ
  | Except.ok (evs, _, _) => some evs.length
  | Except.error _ => none

/-! ### Concrete fixtures used by witnesses -/

/-- Engine fixture for the spam-count scenario: `possibility = 100`,
`operations = Range(3, 3)`, one shocker, shock enabled. -/
def cfgC7 : RandomShockerCfg :=
  ⟨[7], ⟨1, 2, by decide⟩, ⟨10, 20, by decide⟩, ⟨0, 0, by decide⟩,
    ⟨100, ⟨3, 3, by decide⟩, ⟨0, 0, by decide⟩, ⟨1, 1, by decide⟩, none⟩,
    none, none, [Operation.shock]⟩

/-- Engine fixture for the error-swallowing scenario. -/
def cfgC8 : RandomShockerCfg :=
  ⟨[3, 4], ⟨1, 2, by decide⟩, ⟨10, 20, by decide⟩, ⟨0, 0, by decide⟩,
    ⟨50, ⟨2, 5, by decide⟩, ⟨0, 0, by decide⟩, ⟨1, 1, by decide⟩,
      some ⟨30, 40, by decide⟩⟩,
    none, none, buildOperations true true⟩

/-- Engine fixture for the shock-disabled spam-assert scenario:
`shock = False`, `vibrate = True`, `possibility = 50`. -/
def cfgC10 : RandomShockerCfg :=
  ⟨[3], ⟨1, 2, by decide⟩, ⟨10, 20, by decide⟩, ⟨0, 0, by decide⟩,
    ⟨50, ⟨2, 5, by decide⟩, ⟨0, 0, by decide⟩, ⟨1, 1, by decide⟩, none⟩,
    none, none, buildOperations false true⟩

/-- Device info fixture: two shockers with ids 1001 and 1002. -/
def deviceC6 : DeviceInfo := ⟨621, [⟨1001, false⟩, ⟨1002, true⟩]⟩

/-! ### Helper lemmas -/

/-- A key absent from the keys of an association list is not found by
`List.lookup`. -/
theorem lookup_eq_none_of_not_mem_keys {α β : Type} [BEq α] [LawfulBEq α]
    (l : List (α × β)) (k : α) (h : k ∉ l.map Prod.fst) : l.lookup k = none := by
  induction l with
  | nil => rfl
  | cons p t ih =>
    simp only [List.map_cons, List.mem_cons] at h
    push_neg at h
    cases p with
    | mk a b =>
      have hne : (k == a) = false := beq_eq_false_iff_ne.mpr h.1
      simp [List.lookup, hne, ih h.2]

/-- The modelled `random.randint(a, b)` lies in the closed interval. -/
theorem randint_bounds (a b : ℤ) (s : ℕ) (h : a ≤ b) :
    a ≤ randint a b s ∧ randint a b s ≤ b := by
  unfold randint
  have hpos : (0 : ℤ) < b - a + 1 := by omega
  have h1 : 0 ≤ (s : ℤ) % (b - a + 1) := Int.emod_nonneg _ (by omega)
  have h2 : (s : ℤ) % (b - a + 1) < b - a + 1 := Int.emod_lt_of_pos _ hpos
  omega

/-- A `Range.pick` result lies in the closed interval of the range. -/
theorem Range.pick_bounds (r : Range) (s : ℕ) :
    r.a ≤ r.pick s ∧ r.pick s ≤ r.b :=
  randint_bounds r.a r.b s r.inv

/-- The modelled `random.choice` on a nonempty list yields an element. -/
theorem pyChoice_ok {α : Type} (xs : List α) (s : ℕ) (h : xs ≠ []) :
    ∃ x, pyChoice xs s = some x ∧ x ∈ xs := by
  have hlen : 0 < xs.length := List.length_pos.mpr h
  have hm : s % xs.length < xs.length := Nat.mod_lt _ hlen
  exact ⟨xs.get ⟨s % xs.length, hm⟩, by simp [pyChoice, List.get?_eq_get hm],
    List.get_mem _ _ _⟩

/-- The spam loop of `_spam`, run on a nonempty shocker pool, completes with
exactly one shock call per iteration, each satisfying `spamEventOk`, for any
pattern of caught per-operation errors. -/
theorem spamIters_ok (cfg : RandomShockerCfg) (opFails : ℕ → Bool) (σ : ℕ → ℕ)
    (hsh : cfg.shockers ≠ []) :
    ∀ k i ci, ∃ evs i2 ci2,
      spamIters cfg opFails σ k i ci = Except.ok (evs, i2, ci2) ∧
      evs.length = k ∧ ∀ e ∈ evs, spamEventOk cfg e := by
  intro k
  induction k with
  | zero => intro i ci; exact ⟨[], i, ci, rfl, rfl, by simp⟩
  | succ k ih =>
    intro i ci
    obtain ⟨sh, hchoice, hmem⟩ := pyChoice_ok cfg.shockers (σ i) hsh
    obtain ⟨evs, i2, ci2, heq, hlen, hall⟩ := ih (i + 4) (ci + 1)
    refine ⟨Event.shockCall sh (cfg.spam_settings.duration.pick (σ (i + 1)))
      ((cfg.spam_settings.intensity.getD cfg.intensity).pick (σ (i + 2)))
      (opFails ci) :: evs, i2, ci2, ?_, by simp [hlen], ?_⟩
    · simp only [spamIters, hchoice, heq]
    · intro e he
      rcases List.mem_cons.mp he with h | h
      · exact h ▸ ⟨sh, _, _, _, rfl, hmem, (Range.pick_bounds _ _).1,
          (Range.pick_bounds _ _).2, (Range.pick_bounds _ _).1,
          (Range.pick_bounds _ _).2⟩
      · exact hall e h

/-- The spam loop's control flow and drawn parameters do not depend on which
operations fail with a caught error: only the reported flags differ. -/
theorem spamIters_erase (cfg : RandomShockerCfg) (o1 o2 : ℕ → Bool) (σ : ℕ → ℕ) :
    ∀ k i ci, eraseResult (spamIters cfg o1 σ k i ci) =
      eraseResult (spamIters cfg o2 σ k i ci) := by
  intro k
  induction k with
  | zero => intro i ci; rfl
  | succ k ih =>
    intro i ci
    have hih := ih (i + 4) (ci + 1)
    cases hch : pyChoice cfg.shockers (σ i) with
    | none => simp [spamIters, hch, eraseResult]
    | some sh =>
      cases h1 : spamIters cfg o1 σ k (i + 4) (ci + 1) with
      | error e =>
        cases h2 : spamIters cfg o2 σ k (i + 4) (ci + 1) with
        | error e2 =>
          rw [h1, h2] at hih
          simp only [eraseResult, Except.error.injEq] at hih
          simp [spamIters, hch, h1, h2, eraseResult, hih]
        | ok v =>
          rw [h1, h2] at hih
          obtain ⟨evs2, j2, cj2⟩ := v
          simp [eraseResult] at hih
      | ok v =>
        cases h2 : spamIters cfg o2 σ k (i + 4) (ci + 1) with
        | error e2 =>
          rw [h1, h2] at hih
          obtain ⟨evs1, j1, cj1⟩ := v
          simp [eraseResult] at hih
        | ok v2 =>
          rw [h1, h2] at hih
          obtain ⟨evs1, j1, cj1⟩ := v
          obtain ⟨evs2, j2, cj2⟩ := v2
          simp only [eraseResult, Except.ok.injEq, Prod.mk.injEq] at hih
          simp [spamIters, hch, h1, h2, eraseResult, eraseOutcome, hih.1,
            hih.2.1, hih.2.2]

/-- A tick whose 1..100 draw enters the spam branch (and whose configuration
has SHOCK enabled and a nonempty pool) returns normally with exactly
`operations.pick()` shock calls, each satisfying `spamEventOk`. -/
theorem tick_spam_ok (cfg : RandomShockerCfg) (opFails : ℕ → Bool) (σ : ℕ → ℕ)
    (i ci : ℕ) (hsh : cfg.shockers ≠ [])
    (hshock : Operation.shock ∈ cfg.operations)
    (hdraw : randint 1 100 (σ i) ≤ cfg.spam_settings.possibility) :
    ∃ evs i2 ci2, tick cfg opFails σ i ci = Except.ok (evs, i2, ci2) ∧
      evs.length = (cfg.spam_settings.operations.pick (σ (i + 1))).toNat ∧
      ∀ e ∈ evs, spamEventOk cfg e := by
  unfold tick
  rw [if_pos hdraw]
  unfold spam
  rw [if_pos hshock]
  exact spamIters_ok cfg opFails σ hsh _ _ _

/-- A tick whose draw does not enter the spam branch (on a configuration with
a nonempty pool and a nonempty operations list containing only SHOCK and
VIBRATE) returns normally having performed exactly one operation. -/
theorem tick_normal_ok (cfg : RandomShockerCfg) (opFails : ℕ → Bool) (σ : ℕ → ℕ)
    (i ci : ℕ) (hsh : cfg.shockers ≠ [])
    (hops : cfg.operations ≠ [])
    (hsv : ∀ op ∈ cfg.operations, op = Operation.shock ∨ op = Operation.vibrate)
    (hdraw : ¬ randint 1 100 (σ i) ≤ cfg.spam_settings.possibility) :
    ∃ evs i2 ci2, tick cfg opFails σ i ci = Except.ok (evs, i2, ci2) ∧
      evs.length = 1 := by
  obtain ⟨op, hop, hopmem⟩ := pyChoice_ok cfg.operations (σ (i + 1)) hops
  obtain ⟨sh, hshc, hshmem⟩ := pyChoice_ok cfg.shockers (σ (i + 2)) hsh
  unfold tick
  rw [if_neg hdraw]
  rcases hsv op hopmem with h | h
  · subst h
    simp only [hop, hshc]
    exact ⟨_, _, _, rfl, rfl⟩
  · subst h
    simp only [hop, hshc]
    exact ⟨_, _, _, rfl, rfl⟩

/-- A tick's control flow, targets and drawn parameters do not depend on
which operations fail with a caught error: only the reported flags differ. -/
theorem tick_oracle (cfg : RandomShockerCfg) (σ : ℕ → ℕ) (i ci : ℕ)
    (o1 o2 : ℕ → Bool) :
    eraseResult (tick cfg o1 σ i ci) = eraseResult (tick cfg o2 σ i ci) := by
  unfold tick
  by_cases hdraw : randint 1 100 (σ i) ≤ cfg.spam_settings.possibility
  · rw [if_pos hdraw, if_pos hdraw]
    unfold spam
    by_cases hshock : Operation.shock ∈ cfg.operations
    · rw [if_pos hshock, if_pos hshock]
      exact spamIters_erase cfg o1 o2 σ _ _ _
    · rw [if_neg hshock, if_neg hshock]
  · rw [if_neg hdraw, if_neg hdraw]
    cases hop : pyChoice cfg.operations (σ (i + 1)) with
    | none => rfl
    | some op =>
      simp only [hop]
      cases hshc : pyChoice cfg.shockers (σ (i + 2)) with
      | none => rfl
      | some sh =>
        simp only [hshc]
        cases op with
        | shock => simp [shockAction, eraseResult, eraseOutcome]
        | vibrate => simp [vibrateAction, eraseResult, eraseOutcome]
        | beep => rfl

/-- Lookup in the id-keyed dict of device shockers fails exactly when the id
is absent from the reported list. -/
theorem shockersDictLookup_eq_none_iff (l : List DeviceShockerEntry) (i : ℤ) :
    shockersDictLookup l i = none ↔ i ∉ l.map DeviceShockerEntry.id := by
  induction l with
  | nil => simp [shockersDictLookup]
  | cons s t ih =>
    simp only [shockersDictLookup, List.map_cons, List.mem_cons]
    cases h : shockersDictLookup t i with
    | some u =>
      simp only [h] at ih
      simp only [reduceCtorEq, false_iff] at ih
      push_neg at ih
      simp [ih]
    | none =>
      simp only [h, true_iff] at ih
      by_cases heq : s.id = i
      · simp [heq]
      · have : i ≠ s.id := fun hc => heq hc.symm
        simp [heq, this, ih]

/-- If the first sentinel line within the waiting window sits at index `j`,
the wait loop returns its decoded payload having consumed `j + 1` lines. -/
theorem waitInfoAux_found (lines : ℕ → List Char) (timeout : Option ℕ) (j : ℕ)
    (hj : INFO_TAG.isPrefixOf (lines j) = true) :
    ∀ gas count, count ≤ j → j - count < gas →
      (∀ k, count ≤ k → k < j → INFO_TAG.isPrefixOf (lines k) = false) →
      (∀ k, count ≤ k → k ≤ j → stillWaiting timeout k = true) →
      waitInfoAux lines timeout gas count =
        WaitResult.found (decode_info (lines j)) (j + 1) := by
  intro gas
  induction gas with
  | zero => intro count h1 h2 _ _; omega
  | succ gas ih =>
    intro count hcj hgas hnone hwait
    by_cases hc : count = j
    · subst hc
      simp [waitInfoAux, hwait count le_rfl le_rfl, hj]
    · have hlt : count < j := lt_of_le_of_ne hcj hc
      have hfalse : INFO_TAG.isPrefixOf (lines count) = false := hnone count le_rfl hlt
      rw [waitInfoAux, if_pos (by rw [hwait count le_rfl (le_of_lt hlt)]),
        if_neg (by simp [hfalse])]
      exact ih (count + 1) hlt (by omega) (fun k hk1 hk2 => hnone k (by omega) hk2)
        (fun k hk1 hk2 => hwait k (by omega) hk2)

/-- If no sentinel line occurs among the first `N` lines, the bounded wait
loop times out having consumed exactly `N` lines. -/
theorem waitInfoAux_timeout (lines : ℕ → List Char) (N : ℕ) :
    ∀ gas count, count ≤ N → N - count < gas →
      (∀ k, count ≤ k → k < N → INFO_TAG.isPrefixOf (lines k) = false) →
      waitInfoAux lines (some N) gas count = WaitResult.timedOut N := by
  intro gas
  induction gas with
  | zero => intro count h1 h2 _; omega
  | succ gas ih =>
    intro count hcN hgas hnone
    by_cases hc : count = N
    · subst hc
      simp [waitInfoAux, stillWaiting]
    · have hlt : count < N := lt_of_le_of_ne hcN hc
      have hw : stillWaiting (some N) count = true := by simp [stillWaiting, hlt]
      rw [waitInfoAux, if_pos (by rw [hw]),
        if_neg (by simp [hnone count le_rfl hlt])]
      exact ih (count + 1) hlt (by omega) (fun k hk1 hk2 => hnone k (by omega) hk2)

/-- The unbounded wait loop can never produce a timeout. -/
theorem waitInfoAux_unbounded (lines : ℕ → List Char) :
    ∀ gas count m, waitInfoAux lines none gas count ≠ WaitResult.timedOut m := by
  intro gas
  induction gas with
  | zero => intro count m h; exact WaitResult.noConfusion h
  | succ gas ih =>
    intro count m
    have hw : stillWaiting none count = true := rfl
    cases hp : INFO_TAG.isPrefixOf (lines count) with
    | true => simp [waitInfoAux, hw, hp]
    | false =>
      rw [waitInfoAux, if_pos (by rw [hw]), if_neg (by simp [hp])]
      exact ih (count + 1) m

/-! ### Claim theorems -/

/-- Claim C1, amended. For every 200-status response to an HTTP operate call,
the error classification is total and exclusive: a body equal to one of the
nine known failure literals raises exactly the corresponding typed APIError;
one of the two success literals returns normally; any other body raises
UnknownError carrying the raw body. For every 4xx or 5xx status (rather than
every non-2xx status: 1xx/3xx statuses fall through to body classification),
HTTPError carrying status and body is raised, and on info lookups a 404 is
translated to ShareCodeNotFoundError and a 403 to NotAuthorizedError. -/
theorem C1_http_error_taxonomy :
    (∀ p ∈ errorMessages, operateResponse 200 p.1 = Except.error p.2) ∧
    (∀ body ∈ successMessages, operateResponse 200 body = Except.ok ()) ∧
    (∀ body, body ∉ errorMessages.map Prod.fst → body ∉ successMessages →
      operateResponse 200 body = Except.error (ApiError.unknownError body)) ∧
    (∀ status body, 400 ≤ status → status < 600 →
      operateResponse status body = Except.error (ApiError.httpError status body)) ∧
    (∀ body, infoResponseStatus 404 body = Except.error ApiError.shareCodeNotFound) ∧
    (∀ body, infoResponseStatus 403 body = Except.error ApiError.notAuthorized) ∧
    (∀ status body, 400 ≤ status → status < 600 → status ≠ 404 → status ≠ 403 →
      infoResponseStatus status body = Except.error (ApiError.httpError status body)) := by
  refine ⟨by decide, by decide, ?_, ?_, fun body => rfl, fun body => rfl, ?_⟩
  · intro body h1 h2
    have hl : errorMessages.lookup body = none :=
      lookup_eq_none_of_not_mem_keys _ _ h1
    simp [operateResponse, raiseForStatus, classifyOperateBody, hl, h2]
  · intro status body h1 h2
    unfold operateResponse raiseForStatus
    rw [if_pos ⟨h1, h2⟩]
  · intro status body h1 h2 h3 h4
    unfold infoResponseStatus raiseForStatus
    rw [if_pos ⟨h1, h2⟩]
    simp [translateHttpErrors, h3, h4]

/-- Witness for C1: one concrete instance of each clause. -/
theorem C1_http_error_taxonomy_witness :
    operateResponse 200 "Device in Use." = Except.error ApiError.deviceInUse ∧
    operateResponse 200 "Operation Attempted." = Except.ok () ∧
    operateResponse 200 "whatever" = Except.error (ApiError.unknownError "whatever") ∧
    operateResponse 500 "oops" = Except.error (ApiError.httpError 500 "oops") ∧
    infoResponseStatus 404 "nope" = Except.error ApiError.shareCodeNotFound ∧
    infoResponseStatus 403 "nope" = Except.error ApiError.notAuthorized ∧
    infoResponseStatus 500 "oops" = Except.error (ApiError.httpError 500 "oops") :=
  ⟨C1_http_error_taxonomy.1 ("Device in Use.", ApiError.deviceInUse) (by decide),
   C1_http_error_taxonomy.2.1 "Operation Attempted." (by decide),
   C1_http_error_taxonomy.2.2.1 "whatever" (by decide) (by decide),
   C1_http_error_taxonomy.2.2.2.1 500 "oops" (by decide) (by decide),
   C1_http_error_taxonomy.2.2.2.2.1 "nope",
   C1_http_error_taxonomy.2.2.2.2.2.1 "nope",
   C1_http_error_taxonomy.2.2.2.2.2.2 500 "oops" (by decide) (by decide) (by decide)
     (by decide)⟩

/-- Counterexample for C1 as stated: status 300 is not a 2xx status, yet the
code does not raise HTTPError for it; with a success body the call returns
normally, because requests raise_for_status only raises for 4xx/5xx. -/
theorem C1_counterexample :
    ¬(200 ≤ 300 ∧ 300 ≤ 299) ∧
    operateResponse 300 "Operation Succeeded." = Except.ok () :=
  ⟨by decide, by decide⟩

/-- Claim C2, amended. The HTTP transport accepts integers (and
integer-valued floats) 0..15 inclusive plus the strictly-fractional window
0.1 (inclusive) to 1.6 (exclusive) — not 1.5 exclusive as claimed —
reinterpreted as milliseconds, rejecting all other values with a ValueError;
the serial transport accepts any duration with int(duration * 1000) in
0 ≤ ms < 2^32 and rejects all others with a ValueError. -/
theorem C2_duration_validation :
    (∀ d : PyNum, exOk (parseDuration d) = true ↔
      ((d.isFloat = true ∧ ¬ d.val.isIntVal ∧
          PyRat.le ⟨1, 10, by decide⟩ d.val ∧ PyRat.lt d.val ⟨16, 10, by decide⟩) ∨
       (¬(d.isFloat = true ∧ ¬ d.val.isIntVal) ∧
          PyRat.le (pyRatInt 0) d.val ∧ PyRat.le d.val (pyRatInt 15)))) ∧
    (∀ (sid : ℤ) (sop : SerialOperation) (d : PyNum) (i : ℤ), 0 ≤ i → i ≤ 100 →
      (exOk (serialOperate sid sop d (some i)) = true ↔
        (0 ≤ (d.val.mulNat 1000).trunc ∧ (d.val.mulNat 1000).trunc < 2^32))) := by
  constructor
  · intro d
    unfold parseDuration
    split_ifs with h1 h2 h3
    · simp only [exOk, true_iff]
      tauto
    · simp only [exOk, false_iff]
      tauto
    · simp only [exOk, true_iff]
      tauto
    · simp only [exOk, false_iff]
      tauto
  · intro sid sop d i h0 h100
    have hv : intensityInvalid (some i) = false := by
      simp only [intensityInvalid, decide_eq_false_iff_not]
      omega
    unfold serialOperate
    rw [hv]
    simp only [Bool.false_eq_true, if_false]
    split_ifs with h
    · simp only [exOk, false_iff]
      tauto
    · simp only [exOk, true_iff]
      tauto

/-- Witness for C2: the serial clause at a concrete valid intensity. -/
theorem C2_duration_validation_witness :
    exOk (serialOperate 5 SerialOperation.shock ⟨false, pyRatInt 16⟩ (some 50)) = true ↔
      (0 ≤ (PyRat.mulNat (pyRatInt 16) 1000).trunc ∧
        (PyRat.mulNat (pyRatInt 16) 1000).trunc < 2^32) :=
  C2_duration_validation.2 5 SerialOperation.shock ⟨false, pyRatInt 16⟩ 50
    (by decide) (by decide)

/-- Counterexample for C2 as stated: the float duration 1.5 (= 3/2) is
strictly fractional and not below 1.5, so the claimed window [0.1, 1.5)
rejects it, yet the code accepts it and sends 1500 milliseconds: the code
window is 0.1 ≤ d < 1.6. -/
theorem C2_counterexample :
    parseDuration ⟨true, ⟨3, 2, by decide⟩⟩ = Except.ok 1500 ∧
    ¬ PyRat.isIntVal ⟨3, 2, by decide⟩ ∧
    ¬ PyRat.lt ⟨3, 2, by decide⟩ ⟨15, 10, by decide⟩ :=
  ⟨by decide, by decide, by decide⟩

/-- Claim C3. For every shock/vibrate/beep call with an out-of-domain
duration or intensity, the ValueError is raised before any I/O: the HTTP
call produces no request object and the serial call produces no operate
command (in this embedding the request/command exists only inside
`Except.ok`, so a non-ok result means nothing was sent). -/
theorem C3_validation_precedes_transport (logName sharecode : String)
    (op : Operation) (d : PyNum) (inten : Option ℤ) (sid : ℤ)
    (sop : SerialOperation) :
    (intensityInvalid inten = true ∨ exOk (parseDuration d) = false →
      exOk (httpCall logName sharecode op d inten) = false) ∧
    (intensityInvalid inten = true ∨
        ¬(0 ≤ (d.val.mulNat 1000).trunc ∧ (d.val.mulNat 1000).trunc < 2^32) →
      exOk (serialOperate sid sop d inten) = false) := by
  constructor
  · intro h
    unfold httpCall
    by_cases hv : intensityInvalid inten = true
    · rw [if_pos (by rw [hv])]
      rfl
    · rcases h with h | h
      · exact absurd h hv
      · rw [if_neg (by simp [Bool.not_eq_true] at hv; rw [hv]; simp)]
        cases hp : parseDuration d with
        | error e => rfl
        | ok v => rw [hp] at h; exact absurd h (by simp [exOk])
  · intro h
    unfold serialOperate
    by_cases hv : intensityInvalid inten = true
    · rw [if_pos (by rw [hv])]
      rfl
    · rcases h with h | h
      · exact absurd h hv
      · rw [if_neg (by simp [Bool.not_eq_true] at hv; rw [hv]; simp)]
        simp only [if_pos h]
        rfl

/-- Witness for C3: shock(duration=16, intensity=2) on the HTTP transport
and an over-32-bit duration on the serial transport both fail validation
with no request/command produced. -/
theorem C3_validation_precedes_transport_witness :
    exOk (httpCall "Python-PiShock" "62169420AAA" Operation.shock
      ⟨false, pyRatInt 16⟩ (some 2)) = false ∧
    exOk (serialOperate 1001 SerialOperation.shock
      ⟨false, pyRatInt 4294968⟩ (some 2)) = false :=
  ⟨(C3_validation_precedes_transport "Python-PiShock" "62169420AAA"
      Operation.shock ⟨false, pyRatInt 16⟩ (some 2) 1001
      SerialOperation.shock).1 (Or.inr (by decide)),
   (C3_validation_precedes_transport "Python-PiShock" "62169420AAA"
      Operation.shock ⟨false, pyRatInt 4294968⟩ (some 2) 1001
      SerialOperation.shock).2 (Or.inr (by decide))⟩

/-- Claim C4. For every finite bound N and every sequence of incoming serial
lines: if a line starting with the sentinel occurs among the first N lines,
wait_info returns the decoded payload of the first such line, reading no
line past it (it consumes j + 1 lines); if no sentinel occurs among the
first N lines, wait_info raises TimeoutError after consuming exactly N
lines; with an unbounded (None) bound it never raises TimeoutError. `gas`
only bounds how long the loop is simulated. -/
theorem C4_wait_info_behaviour (lines : ℕ → List Char) (N gas : ℕ) :
    (∀ j, j < N → j < gas → INFO_TAG.isPrefixOf (lines j) = true →
      (∀ k, k < j → INFO_TAG.isPrefixOf (lines k) = false) →
      wait_info lines (some N) gas =
        WaitResult.found (decode_info (lines j)) (j + 1)) ∧
    ((∀ k, k < N → INFO_TAG.isPrefixOf (lines k) = false) → N < gas →
      wait_info lines (some N) gas = WaitResult.timedOut N) ∧
    (∀ m, wait_info lines none gas ≠ WaitResult.timedOut m) := by
  refine ⟨?_, ?_, ?_⟩
  · intro j hjN hjgas hj hmin
    exact waitInfoAux_found lines (some N) j hj gas 0 (Nat.zero_le _) (by omega)
      (fun k _ hk => hmin k hk)
      (fun k _ hk => by
        simp only [stillWaiting, decide_eq_true_eq]
        omega)
  · intro hnone hgas
    exact waitInfoAux_timeout lines N gas 0 (Nat.zero_le _) (by omega)
      (fun k _ hk => hnone k hk)
  · intro m
    exact waitInfoAux_unbounded lines gas 0 m

/-- Witness for C4: a sentinel at index 2 among noise is found with 3 lines
consumed; all-noise input times out after exactly N lines; the unbounded
variant does not time out. -/
theorem C4_wait_info_behaviour_witness :
    wait_info (fun n => if n = 2 then "TERMINALINFO: null".data else "noise".data)
      (some 5) 10 = WaitResult.found "null".data 3 ∧
    wait_info (fun _ => "noise".data) (some 3) 10 = WaitResult.timedOut 3 ∧
    wait_info (fun _ => "noise".data) none 10 ≠ WaitResult.timedOut 7 :=
  ⟨(C4_wait_info_behaviour
      (fun n => if n = 2 then "TERMINALINFO: null".data else "noise".data) 5 10).1
      2 (by decide) (by decide) (by decide) (by decide),
   (C4_wait_info_behaviour (fun _ => "noise".data) 3 10).2.1 (by decide) (by decide),
   (C4_wait_info_behaviour (fun _ => "noise".data) 0 10).2.2 7⟩

/-- Claim C5. Autodetection filters the enumerated ports to those whose
(vendor id, product id) pair is in the two-entry allowlist; exactly one
match is returned (and that port is the one the constructor opens), zero
matches raise SerialAutodetectError with no candidates to name, two or more
matches raise SerialAutodetectError naming exactly the candidates, and on
any error the constructor opens no port. -/
theorem C5_autodetect_filter (ports : List ListPortInfo) :
    (∀ c, (ports.filter (fun i => is_maybe_pishock i)).map ListPortInfo.device = [c] →
      autodetect_port ports = Except.ok c ∧ serialAPIInit none ports = Except.ok c) ∧
    ((ports.filter (fun i => is_maybe_pishock i)).map ListPortInfo.device = [] →
      autodetect_port ports = Except.error SerialAutodetectError.noneFound) ∧
    (∀ cands,
      (ports.filter (fun i => is_maybe_pishock i)).map ListPortInfo.device = cands →
      2 ≤ cands.length →
      autodetect_port ports =
        Except.error (SerialAutodetectError.multipleFound cands)) ∧
    (∀ e, autodetect_port ports = Except.error e →
      serialAPIInit none ports = Except.error e) := by
  refine ⟨?_, ?_, ?_, ?_⟩
  · intro c hc
    constructor
    · unfold autodetect_port
      rw [hc]
    · show autodetect_port ports = Except.ok c
      unfold autodetect_port
      rw [hc]
  · intro hc
    unfold autodetect_port
    rw [hc]
  · intro cands hc hlen
    unfold autodetect_port
    rw [hc]
    rcases cands with _ | ⟨c1, cs⟩
    · simp at hlen
    · rcases cs with _ | ⟨c2, rest⟩
      · simp at hlen
      · rfl
  · intro e he
    exact he

/-- Witness for C5: one matching port is picked; none found and two found
raise, the latter naming both candidates. -/
theorem C5_autodetect_filter_witness :
    autodetect_port [⟨"/dev/ttyUSB0", some 0x1A86, some 0x7523⟩,
        ⟨"/dev/other", some 1, some 2⟩] = Except.ok "/dev/ttyUSB0" ∧
    autodetect_port [⟨"/dev/other", some 1, some 2⟩, ⟨"/dev/null", none, none⟩]
      = Except.error SerialAutodetectError.noneFound ∧
    autodetect_port [⟨"/dev/a", some 0x1A86, some 0x7523⟩,
        ⟨"/dev/b", some 0x1A86, some 0x55D4⟩]
      = Except.error (SerialAutodetectError.multipleFound ["/dev/a", "/dev/b"]) :=
  ⟨((C5_autodetect_filter _).1 "/dev/ttyUSB0" (by decide)).1,
   (C5_autodetect_filter _).2.1 (by decide),
   (C5_autodetect_filter _).2.2.1 ["/dev/a", "/dev/b"] (by decide) (by decide)⟩

/-- Claim C6. Serial-backed Shocker construction performs an info round-trip
(sending only the info command, never an operate command) and checks the
reported shocker list: an absent shocker_id raises ShockerNotFoundError, a
present one constructs successfully. -/
theorem C6_serial_shocker_construction (data : DeviceInfo) (sid : ℤ)
    (name : String) :
    (sid ∉ data.shockers.map DeviceShockerEntry.id →
      serialShockerInit data sid name =
        (Except.error (ShockerNotFoundError.notFound sid), serialShockerInitCmds) ∧
      ∀ c ∈ serialShockerInitCmds, c.cmd ≠ "operate") ∧
    (sid ∈ data.shockers.map DeviceShockerEntry.id →
      ∃ b, serialShockerInit data sid name = (Except.ok b, serialShockerInitCmds) ∧
        b.shocker_id = sid) := by
  constructor
  · intro h
    have hl : shockersDictLookup data.shockers sid = none :=
      (shockersDictLookup_eq_none_iff _ _).mpr h
    exact ⟨by simp [serialShockerInit, serialShockerInfo, hl], by decide⟩
  · intro h
    cases he : shockersDictLookup data.shockers sid with
    | none => exact absurd ((shockersDictLookup_eq_none_iff _ _).mp he) (by simpa using h)
    | some s =>
      exact ⟨⟨name, data.clientId, sid, s.paused⟩,
        by simp [serialShockerInit, serialShockerInfo, he], rfl⟩

/-- Witness for C6: on the fixture device (ids 1001, 1002), construction
with id 1003 fails with ShockerNotFoundError after sending only the info
command, and construction with id 1001 succeeds. -/
theorem C6_serial_shocker_construction_witness :
    serialShockerInit deviceC6 1003 "Serial shocker 1003 (COM2)" =
      (Except.error (ShockerNotFoundError.notFound 1003), serialShockerInitCmds) ∧
    exOk (serialShockerInit deviceC6 1001 "Serial shocker 1001 (COM2)").1 = true := by
  constructor
  · exact ((C6_serial_shocker_construction deviceC6 1003
      "Serial shocker 1003 (COM2)").1 (by decide)).1
  · obtain ⟨b, hb, -⟩ := (C6_serial_shocker_construction deviceC6 1001
      "Serial shocker 1001 (COM2)").2 (by decide)
    rw [hb]
    rfl

/-- Claim C7. On every tick, the integer drawn lies in 1..100 and decides
the branch: at most spam_settings.possibility enters the spam branch, which
issues exactly operations.pick() shock calls, each to a shocker from the
pool with duration from the spam duration range and intensity from the spam
intensity range (falling back to the main intensity range); otherwise a
normal action performs exactly one operation. -/
theorem C7_spam_decision_and_burst (cfg : RandomShockerCfg) (opFails : ℕ → Bool)
    (σ : ℕ → ℕ) (i ci : ℕ) (hsh : cfg.shockers ≠ [])
    (hops : cfg.operations ≠ [])
    (hsv : ∀ op ∈ cfg.operations, op = Operation.shock ∨ op = Operation.vibrate)
    (hmem : randint 1 100 (σ i) ≤ cfg.spam_settings.possibility →
      Operation.shock ∈ cfg.operations) :
    (randint 1 100 (σ i) ≤ cfg.spam_settings.possibility →
      ∃ evs i2 ci2, tick cfg opFails σ i ci = Except.ok (evs, i2, ci2) ∧
        evs.length = (cfg.spam_settings.operations.pick (σ (i + 1))).toNat ∧
        ∀ e ∈ evs, spamEventOk cfg e) ∧
    (¬ randint 1 100 (σ i) ≤ cfg.spam_settings.possibility →
      ∃ evs i2 ci2, tick cfg opFails σ i ci = Except.ok (evs, i2, ci2) ∧
        evs.length = 1) ∧
    (1 ≤ randint 1 100 (σ i) ∧ randint 1 100 (σ i) ≤ 100) :=
  ⟨fun h => tick_spam_ok cfg opFails σ i ci hsh (hmem h) h,
   fun h => tick_normal_ok cfg opFails σ i ci hsh hops hsv h,
   randint_bounds 1 100 (σ i) (by decide)⟩

/-- Witness for C7: with possibility = 100 and operations = Range(3, 3), a
single tick performs exactly 3 shock calls. -/
theorem C7_spam_decision_and_burst_witness :
    tickEventCount (tick cfgC7 (fun _ => false) (fun _ => 0) 0 0) = some 3 := by
  obtain ⟨evs, i2, ci2, heq, hlen, -⟩ :=
    (C7_spam_decision_and_burst cfgC7 (fun _ => false) (fun _ => 0) 0 0
      (by decide) (by decide) (by decide) (by decide)).1 (by decide)
  rw [heq]
  simp only [tickEventCount, hlen]
  decide

/-- Claim C8. Any per-operation error of the caught class (APIError or
ValueError) raised by a shock/vibrate call inside a tick or spam iteration
is reported and the loop continues: the tick still returns normally, and
its control flow, targets and drawn parameters are identical whatever the
pattern of failing operations — only the reported failure flags differ. -/
theorem C8_errors_reported_loop_continues (cfg : RandomShockerCfg) (σ : ℕ → ℕ)
    (i ci : ℕ) (hsh : cfg.shockers ≠ [])
    (hops : cfg.operations ≠ [])
    (hsv : ∀ op ∈ cfg.operations, op = Operation.shock ∨ op = Operation.vibrate)
    (hmem : randint 1 100 (σ i) ≤ cfg.spam_settings.possibility →
      Operation.shock ∈ cfg.operations)
    (o1 o2 : ℕ → Bool) :
    exOk (tick cfg o1 σ i ci) = true ∧
    eraseResult (tick cfg o1 σ i ci) = eraseResult (tick cfg o2 σ i ci) := by
  constructor
  · by_cases h : randint 1 100 (σ i) ≤ cfg.spam_settings.possibility
    · obtain ⟨evs, i2, ci2, heq, -, -⟩ := tick_spam_ok cfg o1 σ i ci hsh (hmem h) h
      rw [heq]
      rfl
    · obtain ⟨evs, i2, ci2, heq, -⟩ := tick_normal_ok cfg o1 σ i ci hsh hops hsv h
      rw [heq]
      rfl
  · exact tick_oracle cfg σ i ci o1 o2

/-- Witness for C8: on the fixture engine, a run where every operation fails
still completes its tick, with the same shape as a failure-free run. -/
theorem C8_errors_reported_loop_continues_witness :
    exOk (tick cfgC8 (fun _ => true) (fun _ => 0) 0 0) = true ∧
    eraseResult (tick cfgC8 (fun _ => true) (fun _ => 0) 0 0) =
      eraseResult (tick cfgC8 (fun _ => false) (fun _ => 0) 0 0) :=
  C8_errors_reported_loop_continues cfgC8 (fun _ => 0) 0 0 (by decide) (by decide)
    (by decide) (by decide) (fun _ => true) (fun _ => false)

/-- Claim C9. Range(a, b) with a ≤ b constructs successfully and every
pick() lies in the closed interval [a, b], a degenerate range returning the
constant a; with b < a construction always fails with a ValueError and no
Range value is produced. -/
theorem C9_range_contract (a b : ℤ) :
    (a ≤ b → ∃ r : Range, Range.make a b = Except.ok r ∧ r.a = a ∧ r.b = b ∧
      (∀ s : ℕ, a ≤ r.pick s ∧ r.pick s ≤ b) ∧
      (a = b → ∀ s : ℕ, r.pick s = a)) ∧
    (b < a → Range.make a b = Except.error "Min must be less than max.") := by
  constructor
  · intro hab
    refine ⟨⟨a, b, hab⟩, ?_, rfl, rfl, fun s => randint_bounds a b s hab, ?_⟩
    · unfold Range.make
      rw [dif_neg (not_lt.mpr hab)]
    · intro heq s
      subst heq
      simp [Range.pick, randint, Int.emod_one]
  · intro hba
    unfold Range.make
    rw [dif_pos hba]

/-- Witness for C9: Range(2, 5) constructs, Range(5, 2) raises. -/
theorem C9_range_contract_witness :
    exOk (Range.make 2 5) = true ∧
    Range.make 5 2 = Except.error "Min must be less than max." := by
  constructor
  · obtain ⟨r, hr, -, -, -, -⟩ := (C9_range_contract 2 5).1 (by decide)
    rw [hr]
    rfl
  · exact (C9_range_contract 5 2).2 (by decide)

/-- Claim C10 (implicit). With shocking disabled (shock = False) the SHOCK
operation is absent from the enabled operations, so any tick whose 1..100
draw lands at or below spam_settings.possibility reaches the assert at the
top of _spam and the session crashes with an AssertionError that is not
caught by the per-operation error handling; with possibility ≥ 1 such a
draw exists (the all-zero stream draws 1). -/
theorem C10_spam_assert_crash (cfg : RandomShockerCfg) (opFails : ℕ → Bool)
    (v : Bool) (hops : cfg.operations = buildOperations false v)
    (hposs : 1 ≤ cfg.spam_settings.possibility) :
    (∀ (σ : ℕ → ℕ) (i ci : ℕ),
      randint 1 100 (σ i) ≤ cfg.spam_settings.possibility →
      tick cfg opFails σ i ci = Except.error EngineError.assertionFailed) ∧
    (∀ i ci : ℕ, tick cfg opFails (fun _ => 0) i ci =
      Except.error EngineError.assertionFailed) := by
  have hno : Operation.shock ∉ cfg.operations := by
    rw [hops]
    cases v <;> decide
  have main : ∀ (σ : ℕ → ℕ) (i ci : ℕ),
      randint 1 100 (σ i) ≤ cfg.spam_settings.possibility →
      tick cfg opFails σ i ci = Except.error EngineError.assertionFailed := by
    intro σ i ci hdraw
    unfold tick
    rw [if_pos hdraw]
    unfold spam
    rw [if_neg hno]
  refine ⟨main, fun i ci => main _ i ci ?_⟩
  show randint 1 100 0 ≤ _
  have h1 : randint 1 100 0 = 1 := by decide
  rw [h1]
  exact hposs

/-- Witness for C10: the fixture engine with shock = False, vibrate = True
and possibility = 50 crashes with the assertion error on the all-zero
stream. -/
theorem C10_spam_assert_crash_witness :
    tick cfgC10 (fun _ => false) (fun _ => 0) 0 0 =
      Except.error EngineError.assertionFailed :=
  (C10_spam_assert_crash cfgC10 (fun _ => false) true rfl (by decide)).2 0 0

end PiShock
